import Mathlib

/-!
Verification development for the place-explorer client.

The source is a browser script; its core logic (record normalization,
the filtering/selection pipeline, the session-state cache, the marker
synchronizer) is shallowly embedded below.  JavaScript numbers are
modelled by `ℚ` (the script never produces non-finite coordinates from
valid records; `Number.isFinite` on a modelled number is therefore
`Option.isSome` of the parsed value).  The two transcendental distance
functions used by the script — Leaflet's `distanceTo` (metres) and the
script's own `haversineKm` — enter the model as explicit function
parameters `distM` and `distKm`; no property of them beyond what a
theorem states is assumed.  Asynchronous fetches are modelled by an
explicit `Except` argument carrying the settled outcome of the request.
-/

namespace Share

/-! ### Strings: the script's `norm`, `tokens`, and `includes` helpers -/

/-- Substring test on character lists, mirroring JavaScript
`String.prototype.includes` (the needle is the first argument). -/
def isSubstr (ndl : List Char) : List Char → Bool
  | [] => ndl.isEmpty
  | c :: t => ndl.isPrefixOf (c :: t) || isSubstr ndl t

/-- JavaScript `hay.includes(ndl)` on the embedded strings. -/
def strIncludes (hay ndl : String) : Bool := isSubstr ndl.data hay.data

/-- ASCII lowercasing of a string, as used by `toLowerCase` on the
script's data (`Char.toLower` is the identity outside `A`-`Z`). -/
def lowerStr (s : String) : String := String.mk (s.data.map Char.toLower)

/-- The separator characters replaced by a space in the script's
`norm`: the regular expression `/[|,、]/g`. -/
def sepToSpace (c : Char) : Char := if c = '|' ∨ c = ',' ∨ c = '、' then ' ' else c

/-- Collapse every run of whitespace to a single space, mirroring
`replace(/\s+/g,' ')`.  The boolean records whether the previous
character was part of a whitespace run. -/
def collapseWsAux : Bool → List Char → List Char
  | _, [] => []
  | inRun, c :: cs =>
    if c.isWhitespace then
      if inRun then collapseWsAux true cs else ' ' :: collapseWsAux true cs
    else c :: collapseWsAux false cs

/-- Strip leading and trailing whitespace, mirroring `String.prototype.trim`. -/
def trimChars (l : List Char) : List Char :=
  ((l.dropWhile Char.isWhitespace).reverse.dropWhile Char.isWhitespace).reverse

/-- JavaScript `s.trim()` on embedded strings. -/
def trimStr (s : String) : String := String.mk (trimChars s.data)

/-- The script's query normalizer
`norm = s => (s||'').toString().replace(/[|,、]/g,' ').replace(/\s+/g,' ').trim().toLowerCase()`. -/
def normQ (s : String) : String :=
  String.mk ((trimChars (collapseWsAux false (s.data.map sepToSpace))).map Char.toLower)

/-- Split a character list at every occurrence of the separator
character, mirroring JavaScript `split(sep)` for a one-character
separator (adjacent separators yield empty pieces). -/
def splitCh (sep : Char) : List Char → List (List Char)
  | [] => [[]]
  | c :: cs =>
    match splitCh sep cs with
    | [] => [[]]
    | w :: ws => if c = sep then [] :: w :: ws else (c :: w) :: ws

/-- JavaScript `s.split(sep)` on embedded strings. -/
def splitStr (sep : Char) (s : String) : List String :=
  (splitCh sep s.data).map String.mk

/-- The script's `tokens = q => norm(q).split(' ').filter(Boolean)`. -/
def tokensQ (q : String) : List String :=
  (splitStr ' ' (normQ q)).filter (fun t => t ≠ "")

/-! ### The Place entity and the raw backend record -/

/-- Value of the transient `_d` annotation the script writes on places
during a distance sort: a finite kilometre distance or `Infinity`. -/
inductive EDist
  | val (q : ℚ)
  | inf
deriving DecidableEq, Repr

/-- A normalized place entity, as produced by `normalizeSpot`.  The
`dAnn` field models the dynamically added `_d` property (`none` when
the property is absent). -/
structure Place where
  id : String
  name : String
  lat : Option ℚ
  lon : Option ℚ
  hasCoords : Bool
  desc : String
  tags : List String
  address : String
  url : String
  thumb : Option String
  region : String
  pref : String
  city : String
  studentAvailable : Bool
  dAnn : Option EDist
deriving DecidableEq, Repr

/-- A place with every field defaulted, used to build concrete examples. -/
def basePlace : Place :=
  { id := "", name := "", lat := none, lon := none, hasCoords := false, desc := "",
    tags := [], address := "", url := "", thumb := none, region := "", pref := "",
    city := "", studentAvailable := false, dAnn := none }

/-- A JSON scalar as it can appear in the `lat`/`lon` fields of a raw
backend record (`jnull` also stands for an absent field, which behaves
like `null` under the script's `!= null` check). -/
inductive JVal
  | jnull
  | jstr (s : String)
  | jnum (q : ℚ)
deriving DecidableEq, Repr

/-- Shape of the `tags` field of a raw record: a pipe-delimited string,
an already split list, or anything else (absent, null, ...). -/
inductive JTags
  | tagStr (s : String)
  | tagList (l : List String)
  | tagAbsent
deriving DecidableEq, Repr

/-- A raw backend record as consumed by `normalizeSpot`.  `none` in an
`Option String` field models an absent or null field. -/
structure RawSpot where
  id : Option String
  lat : JVal
  lon : JVal
  name : Option String
  description : Option String
  address : Option String
  url : Option String
  image_url : Option String
  region : Option String
  prefecture : Option String
  pref : Option String
  city : Option String
  tags : JTags
deriving DecidableEq, Repr

/-- A raw record with every field absent, for concrete examples. -/
def emptyRaw : RawSpot :=
  { id := none, lat := JVal.jnull, lon := JVal.jnull, name := none, description := none,
    address := none, url := none, image_url := none, region := none, prefecture := none,
    pref := none, city := none, tags := JTags.tagAbsent }

/-- Numeric value of a list of decimal digit characters. -/
def natOfDigits (l : List Char) : ℕ := l.foldl (fun a c => a * 10 + (c.toNat - 48)) 0

/-- JavaScript `Number(string)` restricted to the decimal fragment that
occurs in the data: optional sign, integer digits, optional fraction.
Returns `none` for `NaN`; the empty (or all-whitespace) string converts
to `0` as in JavaScript. -/
def parseNum (s : String) : Option ℚ :=
  let t := trimChars s.data
  if t.isEmpty then some 0
  else
    let sgn : ℚ := if t.head? = some '-' then -1 else 1
    let r1 := if t.head? = some '-' ∨ t.head? = some '+' then t.tail else t
    let ipart := r1.takeWhile Char.isDigit
    let r2 := r1.dropWhile Char.isDigit
    match r2 with
    | [] => if ipart.isEmpty then none else some (sgn * natOfDigits ipart)
    | '.' :: r3 =>
      let fpart := r3.takeWhile Char.isDigit
      let r4 := r3.dropWhile Char.isDigit
      if r4.isEmpty ∧ (¬ ipart.isEmpty ∨ ¬ fpart.isEmpty) then
        some (sgn * ((natOfDigits ipart : ℚ) + natOfDigits fpart / (10 : ℚ) ^ fpart.length))
      else none
    | _ => none

/-- JavaScript `Number(v)` on a JSON scalar; `none` models `NaN`. -/
def toNumber : JVal → Option ℚ
  | JVal.jnull => some 0
  | JVal.jstr s => parseNum s
  | JVal.jnum q => q

/-- The coordinate parse in `normalizeSpot`:
`(raw.lat !== '' && raw.lat != null && !isNaN(Number(raw.lat))) ? Number(raw.lat) : null`. -/
def coordOf (v : JVal) : Option ℚ :=
  if v = JVal.jstr "" ∨ v = JVal.jnull then none else toNumber v

/-- JavaScript `a || b` on an optional string (an empty string is falsy). -/
def jsOr (a : Option String) (b : String) : String :=
  match a with
  | some s => if s = "" then b else s
  | none => b

/-- The registry's `normalizeSpot(raw, idx)`. -/
def normalizeSpot (raw : RawSpot) (idx : ℕ) : Place :=
  let lat := coordOf raw.lat
  let lon := coordOf raw.lon
  { id := raw.id.getD (toString idx)
    name := jsOr raw.name ""
    lat := lat
    lon := lon
    hasCoords := lat.isSome && lon.isSome
    desc := jsOr raw.description ""
    tags := match raw.tags with
      | JTags.tagStr s => ((splitStr '|' s).map trimStr).filter (fun t => t ≠ "")
      | JTags.tagList l => l
      | JTags.tagAbsent => []
    address := jsOr raw.address ""
    url := jsOr raw.url ""
    thumb := raw.image_url
    region := jsOr raw.region ""
    pref := jsOr raw.prefecture (jsOr raw.pref "")
    city := jsOr raw.city ""
    studentAvailable := false
    dAnn := none }

/-- The catalog load `PLACES = rawSpots.map(normalizeSpot)`, which
passes each record together with its positional index. -/
def buildPlacesAux : ℕ → List RawSpot → List Place
  | _, [] => []
  | i, r :: rs => normalizeSpot r i :: buildPlacesAux (i + 1) rs

/-- The place catalog built from a raw payload. -/
def buildPlaces (raws : List RawSpot) : List Place := buildPlacesAux 0 raws

/-! ### Geo scope, ad-hoc selection, and the filter pipeline -/

/-- The script's global `geoScope` object (only the fields the pipeline
reads; `zoom` and `bbox` are viewport hints the pipeline ignores). -/
structure GeoScope where
  level : Option String
  key : Option String
  prefKey : Option String
  cityKey : Option String
  center : Option (ℚ × ℚ)
  radius : Option ℚ
deriving DecidableEq, Repr

/-- The cleared scope (`level:null, key:null, ...`). -/
def emptyScope : GeoScope :=
  { level := none, key := none, prefKey := none, cityKey := none, center := none,
    radius := none }

/-- The ad-hoc spatial selection layer: a circle (tap) or a rectangle
(Shift+drag); `Option Selection` with `none` models no layer. -/
inductive Selection
  | circle (center : ℚ × ℚ) (radius : ℚ)
  | rect (minLat maxLat minLon maxLon : ℚ)
deriving DecidableEq, Repr

/-- JavaScript truthiness of an optional string (`null` and `''` falsy). -/
def strTruthy : Option String → Bool
  | some s => s ≠ ""
  | none => false

/-- The script's `inGeoScope(lat,lon)`: non-finite coordinates fail
immediately; a scope without a truthy `center` and `radius` admits
everything; otherwise test the circular extent with Leaflet's
`distanceTo` (the `distM` parameter, metres). -/
def inGeoScope (distM : ℚ × ℚ → ℚ × ℚ → ℚ) (gs : GeoScope) (lat lon : Option ℚ) : Bool :=
  match lat, lon with
  | some la, some lo =>
    match gs.center, gs.radius with
    | some c, some r => if r = 0 then true else decide (distM (la, lo) c ≤ r)
    | _, _ => true
  | _, _ => false

/-- The script's `inSelection(lat,lon)`: non-finite coordinates fail
immediately; no layer admits everything; a circle tests `distanceTo`
against its radius; a rectangle tests latitude/longitude containment. -/
def inSelection (distM : ℚ × ℚ → ℚ × ℚ → ℚ) (sel : Option Selection)
    (lat lon : Option ℚ) : Bool :=
  match lat, lon with
  | some la, some lo =>
    match sel with
    | none => true
    | some (Selection.circle c r) => decide (distM (la, lo) c ≤ r)
    | some (Selection.rect a b c2 d) => decide (a ≤ la ∧ la ≤ b ∧ c2 ≤ lo ∧ lo ≤ d)
  | _, _ => false

/-- A latitude/longitude bounding box (the live map viewport). -/
structure Bounds where
  minLat : ℚ
  maxLat : ℚ
  minLon : ℚ
  maxLon : ℚ
deriving DecidableEq, Repr

/-- Leaflet `bounds.contains([lat,lon])` (inclusive range containment). -/
def boundsContains (b : Bounds) (la lo : ℚ) : Bool :=
  decide (b.minLat ≤ la ∧ la ≤ b.maxLat ∧ b.minLon ≤ lo ∧ lo ≤ b.maxLon)

/-- The non-catalog inputs of `filterPlaces` and of the globals it
reads: scope, selection layer, map viewport, selected tags, the four
flags, the current location and the session's favorites. -/
structure FilterArgs where
  geo : GeoScope
  sel : Option Selection
  viewport : Bounds
  tagsSel : List String
  onlyDiscount : Bool
  onlyFavs : Bool
  boundsOnly : Bool
  sortByDistance : Bool
  currentLoc : Option (ℚ × ℚ)
  loggedIn : Bool
  favs : List String
deriving Repr

/-- The script's `isFav(id) = memberAuth.isLoggedIn && favs.has(id)`. -/
def isFav (loggedIn : Bool) (favs : List String) (id : String) : Bool :=
  loggedIn && favs.contains id

/-- An `if (cond) arr = arr.filter(f)` step of the pipeline. -/
def condFilter (c : Bool) (f : Place → Bool) (l : List Place) : List Place :=
  if c then l.filter f else l

/-- Stage 1: `arr.filter(p => inGeoScope(p.lat, p.lon))`. -/
def stageGeo (distM : ℚ × ℚ → ℚ × ℚ → ℚ) (a : FilterArgs) (l : List Place) : List Place :=
  l.filter (fun p => inGeoScope distM a.geo p.lat p.lon)

/-- Stage 2: region label equality, applied when `level === 'region'`
and the key is truthy. -/
def stageRegion (a : FilterArgs) (l : List Place) : List Place :=
  condFilter (decide (a.geo.level = some "region") && strTruthy a.geo.key)
    (fun p => decide (p.region = a.geo.key.getD "")) l

/-- Stage 3: prefecture label equality or address substring, applied
when `prefKey` is truthy. -/
def stagePref (a : FilterArgs) (l : List Place) : List Place :=
  condFilter (strTruthy a.geo.prefKey)
    (fun p => decide (p.pref = a.geo.prefKey.getD "")
      || strIncludes p.address (a.geo.prefKey.getD "")) l

/-- Stage 4: city label equality or address substring, applied when
`cityKey` is truthy. -/
def stageCity (a : FilterArgs) (l : List Place) : List Place :=
  condFilter (strTruthy a.geo.cityKey)
    (fun p => decide (p.city = a.geo.cityKey.getD "")
      || strIncludes p.address (a.geo.cityKey.getD "")) l

/-- Stage 5: `arr.filter(p => inSelection(p.lat, p.lon))`. -/
def stageSel (distM : ℚ × ℚ → ℚ × ℚ → ℚ) (a : FilterArgs) (l : List Place) : List Place :=
  l.filter (fun p => inSelection distM a.sel p.lat p.lon)

/-- Stage 6: viewport containment when the `boundsOnly` flag is set
(coordinates are only read behind the `hasCoords` guard). -/
def stageBounds (a : FilterArgs) (l : List Place) : List Place :=
  condFilter a.boundsOnly
    (fun p => p.hasCoords && boundsContains a.viewport (p.lat.getD 0) (p.lon.getD 0)) l

/-- Stage 7: tag-set intersection when any tag is selected. -/
def stageTags (a : FilterArgs) (l : List Place) : List Place :=
  condFilter (decide (a.tagsSel ≠ []))
    (fun p => p.tags.any (fun t => a.tagsSel.contains t)) l

/-- The searchable haystack of a place: the script joins
`[name, desc, address, pref, city, region, ...tags]` with `'\u0000'`
and lowercases the result. -/
def searchHay (p : Place) : String :=
  lowerStr (String.intercalate (String.mk [Char.ofNat 0])
    ([p.name, p.desc, p.address, p.pref, p.city, p.region] ++ p.tags))

/-- A place matches the text query when every token occurs in its
haystack (`ts.every(t => hay.includes(t))`). -/
def textMatch (q : String) (p : Place) : Bool :=
  (tokensQ q).all (fun t => strIncludes (searchHay p) t)

/-- Stage 8: text query, applied when the token list is nonempty. -/
def stageText (q : String) (l : List Place) : List Place :=
  condFilter (decide (tokensQ q ≠ [])) (textMatch q) l

/-- Stage 9: student-discount availability when the flag is set. -/
def stageDiscount (a : FilterArgs) (l : List Place) : List Place :=
  condFilter a.onlyDiscount (fun p => p.studentAvailable) l

/-- Stage 10: favorites when the flag is set. -/
def stageFavs (a : FilterArgs) (l : List Place) : List Place :=
  condFilter a.onlyFavs (fun p => isFav a.loggedIn a.favs p.id) l

/-- All filtering stages of `filterPlaces`, in source order, before the
optional distance sort. -/
def survivors (distM : ℚ × ℚ → ℚ × ℚ → ℚ) (a : FilterArgs) (q : String)
    (l : List Place) : List Place :=
  stageFavs a (stageDiscount a (stageText q (stageTags a (stageBounds a
    (stageSel distM a (stageCity a (stagePref a (stageRegion a (stageGeo distM a l)))))))))

/-- The annotation value the sort branch writes:
`p._d = p.hasCoords ? haversineKm(loc, [p.lat, p.lon]) : Infinity`
(`distKm` stands for `haversineKm`). -/
def annOf (distKm : ℚ × ℚ → ℚ × ℚ → ℚ) (loc : ℚ × ℚ) (p : Place) : EDist :=
  if p.hasCoords then EDist.val (distKm loc (p.lat.getD 0, p.lon.getD 0)) else EDist.inf

/-- Write the `_d` annotation onto a place. -/
def setAnn (distKm : ℚ × ℚ → ℚ × ℚ → ℚ) (loc : ℚ × ℚ) (p : Place) : Place :=
  { p with dAnn := some (annOf distKm loc p) }

/-- Delete the `_d` annotation from a place (`delete p._d`). -/
def clearAnn (p : Place) : Place := { p with dAnn := none }

/-- Less-or-equal on extended distances: finite values compare by value
and `Infinity` is the greatest element; `Infinity ≤ Infinity` holds,
matching the sort's treatment of the `NaN` the comparator produces for
two infinite operands (a `NaN` comparator result counts as equality). -/
def edCmpLe : EDist → EDist → Bool
  | EDist.val x, EDist.val y => decide (x ≤ y)
  | EDist.val _, EDist.inf => true
  | EDist.inf, EDist.val _ => false
  | EDist.inf, EDist.inf => true

/-- The operand value the comparator
`(a,b) => (a._d||1e9) - (b._d||1e9)` reads: a zero distance is falsy in
JavaScript and is replaced by `1e9`.  An absent `_d` is `undefined`
(also falsy), though it cannot occur after the annotation pass. -/
def dKey : Option EDist → EDist
  | some (EDist.val q) => if q = 0 then EDist.val 1000000000 else EDist.val q
  | some EDist.inf => EDist.inf
  | none => EDist.val 1000000000

/-- The comparator of the sort branch as a `le` relation. -/
def placeLe (p r : Place) : Bool := edCmpLe (dKey p.dAnn) (dKey r.dAnn)

/-- Output of one `filterPlaces` call: the returned list, and the
catalog as left behind by the pass (the script mutates the shared
place objects through the `_d` property). -/
structure FilterOut where
  result : List Place
  catalog : List Place
deriving DecidableEq, Repr

/-- The script's `filterPlaces(query, opts)` over a catalog `l`,
including its effect on the catalog's place objects: with the sort
requested and a current location known it annotates every surviving
place with `_d` and stably sorts the result by the comparator;
otherwise it deletes `_d` from every surviving place and keeps catalog
order. -/
def filterPlaces (distM distKm : ℚ × ℚ → ℚ × ℚ → ℚ) (a : FilterArgs) (q : String)
    (l : List Place) : FilterOut :=
  if a.sortByDistance && a.currentLoc.isSome then
    { result := ((survivors distM a q l).map
        (setAnn distKm (a.currentLoc.getD (0, 0)))).mergeSort placeLe
      catalog := l.map (fun p => if p ∈ survivors distM a q l then
        setAnn distKm (a.currentLoc.getD (0, 0)) p else p) }
  else
    { result := (survivors distM a q l).map clearAnn
      catalog := l.map (fun p => if p ∈ survivors distM a q l then clearAnn p else p) }

/-! ### Session state: comments cache, favorites, auth transitions -/

/-- A comment as stored in the per-place cache (only the fields the
modelled operations touch). -/
structure Comment where
  body : String
  rating : ℤ
deriving DecidableEq, Repr

/-- The `commentsCache` JavaScript `Map`, modelled as an insertion-order
association list with unique keys. -/
abbrev CCache := List (String × List Comment)

/-- `Map.get` on the comments cache. -/
def cacheLookup (pid : String) : CCache → Option (List Comment)
  | [] => none
  | e :: rest => if e.1 = pid then some e.2 else cacheLookup pid rest

/-- `Map.set` on the comments cache: replace in place if the key is
present, else append. -/
def cacheSet (pid : String) (v : List Comment) : CCache → CCache
  | [] => [(pid, v)]
  | e :: rest => if e.1 = pid then (pid, v) :: rest else e :: cacheSet pid v rest

/-- `Map.delete` on the comments cache. -/
def cacheDelete (pid : String) : CCache → CCache
  | [] => []
  | e :: rest => if e.1 = pid then rest else e :: cacheDelete pid rest

/-- The script's `ensureComments(placeId)`.  The settled outcome of the
`/api/comments` request is passed as `fetched` (`Except.ok` carries the
parsed comment array; `Except.error` models a rejected request or a
JSON parse failure).  Returns the updated cache and the returned list. -/
def ensureComments (loggedIn : Bool) (cache : CCache) (pid : String)
    (fetched : Except Unit (List Comment)) : CCache × List Comment :=
  if loggedIn = false then (cacheDelete pid cache, [])
  else
    match cacheLookup pid cache with
    | some items => (cache, items)
    | none =>
      match fetched with
      | Except.ok items => (cacheSet pid items cache, items)
      | Except.error _ => (cacheSet pid [] cache, [])

/-- A favorites mutation request sent to the backend. -/
inductive FavReq
  | add (id : String)
  | remove (id : String)
deriving DecidableEq, Repr

/-- Observable outcome of one `toggleFav` call: the favorite-id set
afterwards, the requests issued, and whether a toast was shown. -/
structure ToggleOut where
  favs : List String
  requests : List FavReq
  notice : Bool
deriving DecidableEq, Repr

/-- The script's `toggleFav(id)`.  `netOk` tells whether the issued
request's promise resolved (a resolved non-2xx response is not checked
by the script and also counts as `true`); on rejection the membership
flip is skipped and a failure toast is shown. -/
def toggleFav (loggedIn : Bool) (favs : List String) (id : String)
    (netOk : Bool) : ToggleOut :=
  if loggedIn = false then { favs := favs, requests := [], notice := true }
  else if favs.contains id then
    if netOk then { favs := favs.erase id, requests := [FavReq.remove id], notice := false }
    else { favs := favs, requests := [FavReq.remove id], notice := true }
  else
    if netOk then { favs := favs ++ [id], requests := [FavReq.add id], notice := false }
    else { favs := favs, requests := [FavReq.add id], notice := true }

/-- The session-scoped mutable state the auth listener owns. -/
structure SessionState where
  user : Option String
  idToken : Option String
  isLoggedIn : Bool
  favs : List String
  commentsCache : CCache
  searchHistory : List String
deriving DecidableEq, Repr

/-- The script's `loadFavorites()`: guests get the empty set; a failed
fetch also yields the empty set. -/
def loadFavorites (loggedIn : Bool) (fetched : Except Unit (List String)) : List String :=
  if loggedIn = false then []
  else
    match fetched with
    | Except.ok items => items
    | Except.error _ => []

/-- The script's `refreshSearchHistory()`: guests get the empty list; a
failed fetch also yields the empty list. -/
def refreshSearchHistory (loggedIn : Bool) (fetched : Except Unit (List String)) :
    List String :=
  if loggedIn = false then []
  else
    match fetched with
    | Except.ok qs => qs
    | Except.error _ => []

/-- The `firebase-auth-state` listener: computes the new logged-in bit
from `user && idToken`, unconditionally clears the comments cache, and
either refetches favorites and search history (authenticated; the
settled fetch outcomes are the last two arguments) or resets both
synchronously (unauthenticated).  The previous state `s` is wholly
overwritten. -/
def onAuthChange (s : SessionState) (user idToken : Option String)
    (favFetch histFetch : Except Unit (List String)) : SessionState :=
  let logged := user.isSome && idToken.isSome
  { user := user
    idToken := idToken
    isLoggedIn := logged
    commentsCache := []
    favs := if logged then loadFavorites logged favFetch else []
    searchHistory := if logged then refreshSearchHistory logged histFetch else [] }

/-! ### Marker synchronizer -/

/-- Observable outcome of one `syncMarkers` call: the add and remove
instructions issued to the cluster layer, and the set of marker ids the
cluster holds afterwards. -/
structure SyncOut where
  added : List String
  removed : List String
  rendered : List String
deriving DecidableEq, Repr

/-- The script's `syncMarkers(keepIds)`.  `pool` is the id domain of
`markerPool` (only places with coordinates get a marker), `rendered`
the ids of pool markers currently on the cluster (the `current` set the
function recomputes), `keep` the requested visible id-set.  An id in
`keep` without a pool marker is skipped (`if (mk)`). -/
def syncMarkers (pool rendered keep : List String) : SyncOut :=
  let toAdd := keep.filter (fun id => !(decide (id ∈ rendered)) && decide (id ∈ pool))
  let toRemove := rendered.filter (fun id => !(decide (id ∈ keep)))
  { added := toAdd
    removed := toRemove
    rendered := rendered.filter (fun id => decide (id ∈ keep)) ++ toAdd }

/-- The keep-set the renderer passes to `syncMarkers`:
`new Set(list.filter(p => p.hasCoords).map(p => p.id))`. -/
def renderKeepIds (l : List Place) : List String :=
  (l.filter (fun p => p.hasCoords)).map Place.id

/-! ### Concrete instances used by witnesses and counterexamples -/

/-- A trivial stand-in for Leaflet's `distanceTo` in concrete runs. -/
def dm0 : ℚ × ℚ → ℚ × ℚ → ℚ := fun _ _ => 0

/-- A concrete distance function for `haversineKm` in concrete runs; it
shares the properties of the real haversine that the statements below
use, namely `dk0 x x = 0` and `0 < dk0 x y` for the points involved. -/
def dk0 : ℚ × ℚ → ℚ × ℚ → ℚ := fun a b => |a.1 - b.1| + |a.2 - b.2|

/-- A viewport covering the whole globe. -/
def wideView : Bounds :=
  { minLat := -90, maxLat := 90, minLon := -180, maxLon := 180 }

/-- Arguments with no scope, no selection, no tags and all flags off. -/
def argsNone : FilterArgs :=
  { geo := emptyScope, sel := none, viewport := wideView, tagsSel := [],
    onlyDiscount := false, onlyFavs := false, boundsOnly := false,
    sortByDistance := false, currentLoc := none, loggedIn := false, favs := [] }

/-- The same arguments with the distance sort on and a known location. -/
def argsSort : FilterArgs :=
  { argsNone with sortByDistance := true, currentLoc := some (35, 139) }

/-- A place with coordinates, sitting exactly at `argsSort`'s location. -/
def placeA : Place :=
  { basePlace with
    id := "a", name := "Park", lat := some 35, lon := some 139,
    hasCoords := true, tags := ["park"] }

/-- A second place with coordinates, one degree of latitude away. -/
def placeB : Place :=
  { basePlace with
    id := "b", name := "Tower", lat := some 36, lon := some 139,
    hasCoords := true, tags := ["tower"] }

/-- A place without coordinates. -/
def placeN : Place :=
  { basePlace with id := "n", name := "Museum", tags := ["museum"] }

/-- A place whose name and description carry mixed-case search words. -/
def placeCafe : Place :=
  { basePlace with id := "c", name := "Rose Garden", desc := "a quiet Cafe" }

/-! ### Helper lemmas on the pipeline -/

theorem condFilter_mem {c : Bool} {f : Place → Bool} {l : List Place} {p : Place}
    (h : p ∈ condFilter c f l) : p ∈ l ∧ (c = true → f p = true) := by
  cases c <;> simp_all [condFilter]

theorem condFilter_sublist (c : Bool) (f : Place → Bool) (l : List Place) :
    (condFilter c f l).Sublist l := by
  cases c with
  | false => simp [condFilter]
  | true => simp [condFilter, List.filter_sublist]

/-- Membership in the pre-sort survivor list descends to the catalog and
records the facts the stage predicates enforce that the claims need. -/
theorem mem_survivors {distM : ℚ × ℚ → ℚ × ℚ → ℚ} {a : FilterArgs} {q : String}
    {l : List Place} {p : Place} (h : p ∈ survivors distM a q l) :
    p ∈ l ∧ inGeoScope distM a.geo p.lat p.lon = true ∧
      (a.onlyDiscount = true → p.studentAvailable = true) := by
  unfold survivors stageFavs stageDiscount stageText stageTags stageBounds stageSel
    stageCity stagePref stageRegion stageGeo at h
  obtain ⟨h, -⟩ := condFilter_mem h
  obtain ⟨h, hd⟩ := condFilter_mem h
  obtain ⟨h, -⟩ := condFilter_mem h
  obtain ⟨h, -⟩ := condFilter_mem h
  obtain ⟨h, -⟩ := condFilter_mem h
  rw [List.mem_filter] at h
  obtain ⟨h, -⟩ := h
  obtain ⟨h, -⟩ := condFilter_mem h
  obtain ⟨h, -⟩ := condFilter_mem h
  obtain ⟨h, -⟩ := condFilter_mem h
  rw [List.mem_filter] at h
  obtain ⟨h, hg⟩ := h
  exact ⟨h, hg, hd⟩

theorem survivors_sublist (distM : ℚ × ℚ → ℚ × ℚ → ℚ) (a : FilterArgs) (q : String)
    (l : List Place) : (survivors distM a q l).Sublist l := by
  unfold survivors stageFavs stageDiscount stageText stageTags stageBounds stageSel
    stageCity stagePref stageRegion stageGeo
  exact (condFilter_sublist _ _ _).trans ((condFilter_sublist _ _ _).trans
    ((condFilter_sublist _ _ _).trans ((condFilter_sublist _ _ _).trans
    ((condFilter_sublist _ _ _).trans ((List.filter_sublist _).trans
    ((condFilter_sublist _ _ _).trans ((condFilter_sublist _ _ _).trans
    ((condFilter_sublist _ _ _).trans (List.filter_sublist _)))))))))

theorem inGeoScope_isSome {distM : ℚ × ℚ → ℚ × ℚ → ℚ} {gs : GeoScope}
    {lat lon : Option ℚ} (h : inGeoScope distM gs lat lon = true) :
    lat.isSome = true ∧ lon.isSome = true := by
  cases lat <;> cases lon <;> simp_all [inGeoScope]

@[simp] theorem setAnn_lat (distKm : ℚ × ℚ → ℚ × ℚ → ℚ) (loc : ℚ × ℚ) (p : Place) :
    (setAnn distKm loc p).lat = p.lat := rfl

@[simp] theorem setAnn_lon (distKm : ℚ × ℚ → ℚ × ℚ → ℚ) (loc : ℚ × ℚ) (p : Place) :
    (setAnn distKm loc p).lon = p.lon := rfl

@[simp] theorem clearAnn_lat (p : Place) : (clearAnn p).lat = p.lat := rfl

@[simp] theorem clearAnn_lon (p : Place) : (clearAnn p).lon = p.lon := rfl

@[simp] theorem setAnn_id (distKm : ℚ × ℚ → ℚ × ℚ → ℚ) (loc : ℚ × ℚ) (p : Place) :
    (setAnn distKm loc p).id = p.id := rfl

@[simp] theorem clearAnn_id (p : Place) : (clearAnn p).id = p.id := rfl

@[simp] theorem clearAnn_setAnn (distKm : ℚ × ℚ → ℚ × ℚ → ℚ) (loc : ℚ × ℚ) (p : Place) :
    clearAnn (setAnn distKm loc p) = clearAnn p := rfl

@[simp] theorem annOf_setAnn (distKm distKm2 : ℚ × ℚ → ℚ × ℚ → ℚ) (loc loc2 : ℚ × ℚ)
    (p : Place) : annOf distKm loc (setAnn distKm2 loc2 p) = annOf distKm loc p := rfl

@[simp] theorem clearAnn_clearAnn (p : Place) : clearAnn (clearAnn p) = clearAnn p := rfl

/-- Every place in a pipeline output has both coordinates present. -/
theorem result_mem_coords {distM distKm : ℚ × ℚ → ℚ × ℚ → ℚ} {a : FilterArgs}
    {q : String} {l : List Place} {p : Place}
    (h : p ∈ (filterPlaces distM distKm a q l).result) :
    p.lat.isSome = true ∧ p.lon.isSome = true := by
  unfold filterPlaces at h
  by_cases hs : (a.sortByDistance && a.currentLoc.isSome) = true
  · rw [if_pos hs] at h
    simp only [List.mem_mergeSort, List.mem_map] at h
    obtain ⟨p0, hp0, rfl⟩ := h
    have hc := inGeoScope_isSome (mem_survivors hp0).2.1
    simpa using hc
  · rw [if_neg hs] at h
    simp only [List.mem_map] at h
    obtain ⟨p0, hp0, rfl⟩ := h
    have hc := inGeoScope_isSome (mem_survivors hp0).2.1
    simpa using hc

theorem edCmpLe_trans (a b c : EDist) (h1 : edCmpLe a b = true)
    (h2 : edCmpLe b c = true) : edCmpLe a c = true := by
  cases a <;> cases b <;> cases c <;> simp_all [edCmpLe]
  exact le_trans h1 h2

theorem edCmpLe_total (a b : EDist) : (edCmpLe a b || edCmpLe b a) = true := by
  cases a <;> cases b <;> simp [edCmpLe]
  exact le_total _ _

theorem placeLe_trans (p r s2 : Place) (h1 : placeLe p r = true)
    (h2 : placeLe r s2 = true) : placeLe p s2 = true :=
  edCmpLe_trans _ _ _ h1 h2

theorem placeLe_total (p r : Place) : (placeLe p r || placeLe r p) = true :=
  edCmpLe_total _ _

/-- Computed form of a stable two-element merge sort, used to evaluate
the pipeline at concrete inputs. -/
theorem mergeSort_pair (x y : Place) (le : Place → Place → Bool) :
    List.mergeSort [x, y] le = if le x y then [x, y] else [y, x] := by
  rw [List.mergeSort]
  simp [List.splitInTwo, List.splitAt, List.splitAt.go, List.merge]

/-! ### Claim C1 -/

/-- Claim C1: the filter pipeline's text stage keeps a place `p` for
query `q` exactly when every whitespace token of the normalized query
(lowercased, with pipe and comma separators replaced by spaces) occurs
as a substring of the lowercased searchable text of `p` — the joined
concatenation of its name, description, address, pref, city and region
labels and its tags.  Tokens combine with AND semantics, and both the
query and the haystack are lowercased, so matching is
case-insensitive. -/
theorem c1_text_stage_keeps_iff (q : String) (l : List Place) (p : Place) :
    p ∈ stageText q l ↔
      p ∈ l ∧ ∀ t ∈ tokensQ q, strIncludes (searchHay p) t = true := by
  unfold stageText condFilter textMatch
  by_cases h : tokensQ q = []
  · simp [h]
  · simp [h, List.mem_filter, List.all_eq_true]

/-- Witness for C1 at a concrete input: the mixed-case query
`"Cafe GARDEN"` matches a place whose name is `"Rose Garden"` and whose
description is `"a quiet Cafe"`; both tokens are found
case-insensitively across two different fields. -/
theorem c1_witness : placeCafe ∈ stageText "Cafe GARDEN" [placeCafe] :=
  (c1_text_stage_keeps_iff "Cafe GARDEN" [placeCafe] placeCafe).mpr
    ⟨by decide, by decide⟩

/-! ### Claim C2 -/

/-- Counterexample to C2 as stated: with no geo scope, no ad-hoc
selection and the viewport flag off — that is, with no coordinate-based
test active — a place lacking coordinates is still excluded by the
pipeline rather than passed through, because `inGeoScope` rejects
non-finite coordinates before checking whether a circular extent is
configured. -/
theorem c2_counterexample :
    (filterPlaces dm0 dk0 argsNone "" [placeN]).result = [] := by decide

/-- Claim C2 (amended): a place lacking a finite latitude or longitude
is excluded by the geo-scope containment stage unconditionally, whether
or not any coordinate-based test is active; consequently every place in
the pipeline's output carries both coordinates. -/
theorem c2_amended_no_coords_excluded (distM distKm : ℚ × ℚ → ℚ × ℚ → ℚ)
    (a : FilterArgs) (q : String) (l : List Place) (p : Place)
    (hp : p ∈ (filterPlaces distM distKm a q l).result) :
    p.lat.isSome = true ∧ p.lon.isSome = true :=
  result_mem_coords hp

/-- Witness for the amended C2 at a concrete input. -/
theorem c2_witness : (Place.lat placeA).isSome = true ∧ (Place.lon placeA).isSome = true :=
  c2_amended_no_coords_excluded dm0 dk0 argsNone "" [placeA] placeA (by decide)

/-! ### Claim C3 -/

/-- Counterexample to C3 as stated: a distance-sorting pass writes the
transient `_d` annotation onto the surviving place objects, which are
the catalog's own entities, so the catalog is mutated by the pass. -/
theorem c3_counterexample :
    (filterPlaces dm0 dk0 argsSort "" [placeA]).catalog ≠ [placeA] := by decide

/-- Claim C3 (amended): the pipeline returns a fresh list and neither
adds, removes nor reorders catalog entries — the catalog keeps the same
places with the same ids — but it does mutate the surviving Place
entities through the transient `_d` distance annotation, which it
writes when distance-sorting and deletes otherwise; every field other
than `_d` is left unchanged. -/
theorem c3_amended_catalog_preserved_mod_ann (distM distKm : ℚ × ℚ → ℚ × ℚ → ℚ)
    (a : FilterArgs) (q : String) (l : List Place) :
    (filterPlaces distM distKm a q l).catalog.map clearAnn = l.map clearAnn ∧
    (filterPlaces distM distKm a q l).catalog.map Place.id = l.map Place.id ∧
    (filterPlaces distM distKm a q l).catalog.length = l.length := by
  have hmain : (filterPlaces distM distKm a q l).catalog.map clearAnn = l.map clearAnn := by
    unfold filterPlaces
    by_cases hs : (a.sortByDistance && a.currentLoc.isSome) = true
    · rw [if_pos hs]
      rw [List.map_map]
      refine List.map_congr_left ?_
      intro p hp
      by_cases h : p ∈ survivors distM a q l <;> simp [h, Function.comp]
    · rw [if_neg hs]
      rw [List.map_map]
      refine List.map_congr_left ?_
      intro p hp
      by_cases h : p ∈ survivors distM a q l <;> simp [h, Function.comp]
  refine ⟨hmain, ?_, ?_⟩
  · have := congrArg (List.map Place.id) hmain
    simpa [List.map_map, Function.comp] using this
  · have := congrArg List.length hmain
    simpa using this

/-- Instance of the amended C3 at a concrete input. -/
theorem c3_witness :
    (filterPlaces dm0 dk0 argsSort "" [placeA]).catalog.map clearAnn =
      [placeA].map clearAnn :=
  (c3_amended_catalog_preserved_mod_ann dm0 dk0 argsSort "" [placeA]).1

/-! ### Claim C4 -/

/-- Looking up a key right after setting it yields the value just set. -/
theorem cacheLookup_cacheSet (pid : String) (v : List Comment) (c : CCache) :
    cacheLookup pid (cacheSet pid v c) = some v := by
  induction c with
  | nil => simp [cacheSet, cacheLookup]
  | cons e rest ih =>
    by_cases h : e.1 = pid
    · simp [cacheSet, cacheLookup, h]
    · simp [cacheSet, cacheLookup, h, ih]

/-- Counterexample to C4 as stated: after a failed fetch the function
caches the empty list, so a second call for the same place returns the
cached empty list and ignores a fetch that would now succeed, instead
of retrying. -/
theorem c4_counterexample :
    (ensureComments true [] "p" (Except.error ())).1 = [("p", [])] ∧
    (ensureComments true (ensureComments true [] "p" (Except.error ())).1 "p"
      (Except.ok [{ body := "great", rating := 5 }])).2 = [] := by decide

/-- Claim C4 (amended): while authenticated, `ensureComments` returns
the cached list when an entry is present (without consulting the
network); on a cache miss it fetches — caching and returning the items
on success, and on failure returning the empty list while also caching
the empty list, so that every subsequent call for the same placeId
returns the cached empty list and performs no new fetch.  While
unauthenticated it deletes the entry and returns the empty list. -/
theorem c4_amended_ensure_comments (cache : CCache) (pid : String)
    (items : List Comment) (f : Except Unit (List Comment)) :
    (∀ cur, cacheLookup pid cache = some cur →
      ensureComments true cache pid f = (cache, cur)) ∧
    (cacheLookup pid cache = none →
      ensureComments true cache pid (Except.ok items) = (cacheSet pid items cache, items)) ∧
    (cacheLookup pid cache = none →
      ensureComments true cache pid (Except.error ()) = (cacheSet pid [] cache, []) ∧
      ∀ f2, ensureComments true (cacheSet pid [] cache) pid f2 = (cacheSet pid [] cache, [])) ∧
    ensureComments false cache pid f = (cacheDelete pid cache, []) := by
  refine ⟨?_, ?_, ?_, ?_⟩
  · intro cur hcur
    simp [ensureComments, hcur]
  · intro hn
    simp [ensureComments, hn]
  · intro hn
    refine ⟨by simp [ensureComments, hn], ?_⟩
    intro f2
    simp [ensureComments, cacheLookup_cacheSet]
  · simp [ensureComments]

/-- Witness for the amended C4 at a concrete input: a present cache
entry is returned as-is even when the fetch would fail. -/
theorem c4_witness :
    ensureComments true [("p", [{ body := "nice", rating := 3 }])] "p" (Except.error ()) =
      ([("p", [{ body := "nice", rating := 3 }])], [{ body := "nice", rating := 3 }]) :=
  (c4_amended_ensure_comments [("p", [{ body := "nice", rating := 3 }])] "p" []
    (Except.error ())).1 [{ body := "nice", rating := 3 }] (by decide)

/-! ### Claim C5 -/

/-- A list of places is ascending by great-circle distance from `loc`
when each adjacent pair is ordered by `edCmpLe` on the distances the
sort stage computes (finite distances by value, places lacking
coordinates — distance `Infinity` — last). -/
def ascendingByDistance (distKm : ℚ × ℚ → ℚ × ℚ → ℚ) (loc : ℚ × ℚ)
    (l : List Place) : Prop :=
  List.Chain' (fun p r => edCmpLe (annOf distKm loc p) (annOf distKm loc r) = true) l

/-- Distance annotation computed for place `a` at the counterexample
location: it sits exactly at the current location, distance `0`. -/
theorem annOf_placeA : annOf dk0 (35, 139) placeA = EDist.val 0 := by
  norm_num [annOf, placeA, basePlace, dk0]

/-- Distance annotation computed for place `b`: one degree of latitude,
distance `1` under `dk0`. -/
theorem annOf_placeB : annOf dk0 (35, 139) placeB = EDist.val 1 := by
  norm_num [annOf, placeB, basePlace, dk0]

/-- The comparator puts the annotated place `a` after the annotated
place `b`: `a`'s zero distance is keyed as `1e9`. -/
theorem placeLe_ab_false :
    placeLe (setAnn dk0 (35, 139) placeA) (setAnn dk0 (35, 139) placeB) = false := by
  have hb := annOf_placeB
  simp only [placeLe, setAnn, annOf_placeA, hb, dKey]
  norm_num [edCmpLe]

/-- Computed output of the sort pass at the two-place counterexample
input: place `b` (strictly farther) precedes place `a` (distance 0). -/
theorem c5_result_concrete :
    (filterPlaces dm0 dk0 argsSort "" [placeA, placeB]).result =
      [setAnn dk0 (35, 139) placeB, setAnn dk0 (35, 139) placeA] := by
  have hsurv : survivors dm0 argsSort "" [placeA, placeB] = [placeA, placeB] := by decide
  unfold filterPlaces
  rw [if_pos (by decide)]
  simp only [hsurv]
  have hloc : argsSort.currentLoc.getD (0, 0) = (35, 139) := by decide
  rw [hloc, List.map_cons, List.map_cons, List.map_nil, mergeSort_pair,
    if_neg (by simp [placeLe_ab_false])]

/-- Counterexample to C5 as stated: with the current location exactly at
place `a`, the distance annotation of `a` is `0`; the comparator
`(a._d || 1e9) - (b._d || 1e9)` treats the falsy `0` as `1e9`, so `a`
sorts after the strictly farther place `b` and the output is not
ascending by distance. -/
theorem c5_counterexample :
    dk0 (35, 139) (35, 139) = 0 ∧
    0 < dk0 (35, 139) (36, 139) ∧
    (filterPlaces dm0 dk0 argsSort "" [placeA, placeB]).result.map Place.id = ["b", "a"] ∧
    ¬ ascendingByDistance dk0 (35, 139)
        (filterPlaces dm0 dk0 argsSort "" [placeA, placeB]).result := by
  refine ⟨by norm_num [dk0], by norm_num [dk0], ?_, ?_⟩
  · rw [c5_result_concrete]
    decide
  · rw [c5_result_concrete]
    simp only [ascendingByDistance, List.chain'_cons, List.chain'_singleton, and_true]
    intro hch
    simp only [annOf_setAnn, annOf_placeA, annOf_placeB] at hch
    norm_num [edCmpLe] at hch

/-- Claim C5 (amended): when the sort flag is set and a location is
known, the output is a permutation of the surviving places (each
annotated with its distance) ordered by the comparator key — the
distance, except that an exact zero distance is keyed as `1e9` and an
absent-coordinate annotation as infinity (such places never survive the
earlier stages anyway); otherwise the output preserves catalog order
(it is a sublist of the catalog with annotations deleted). -/
theorem c5_amended_sort_behavior (distM distKm : ℚ × ℚ → ℚ × ℚ → ℚ)
    (a : FilterArgs) (q : String) (l : List Place) :
    ((a.sortByDistance && a.currentLoc.isSome) = true →
      (filterPlaces distM distKm a q l).result.Perm
        ((survivors distM a q l).map (setAnn distKm (a.currentLoc.getD (0, 0)))) ∧
      (filterPlaces distM distKm a q l).result.Pairwise
        (fun p r => placeLe p r = true)) ∧
    ((a.sortByDistance && a.currentLoc.isSome) = false →
      (filterPlaces distM distKm a q l).result.Sublist (l.map clearAnn)) := by
  constructor
  · intro hs
    unfold filterPlaces
    rw [if_pos hs]
    constructor
    · exact List.mergeSort_perm _ _
    · simpa using List.sorted_mergeSort placeLe_trans placeLe_total
        ((survivors distM a q l).map (setAnn distKm (a.currentLoc.getD (0, 0))))
  · intro hs
    unfold filterPlaces
    rw [if_neg (by simp [hs])]
    exact (survivors_sublist distM a q l).map clearAnn

/-- Witness for the amended C5 at a concrete input. -/
theorem c5_witness :
    (filterPlaces dm0 dk0 argsSort "" [placeA, placeB]).result.Pairwise
      (fun p r => placeLe p r = true) :=
  ((c5_amended_sort_behavior dm0 dk0 argsSort "" [placeA, placeB]).1 (by decide)).2

/-! ### Claim C6 -/

/-- A raw record with a valid latitude and a blank longitude. -/
def rawLatOnly : RawSpot :=
  { emptyRaw with lat := JVal.jnum 35, lon := JVal.jstr "" }

/-- Counterexample to C6 as stated: the two coordinates are parsed
independently, so a blank `lon` does not make **both** coordinates
absent — the valid `lat` is retained (only `hasCoords` goes false). -/
theorem c6_counterexample :
    (normalizeSpot rawLatOnly 0).lat = some 35 ∧
    (normalizeSpot rawLatOnly 0).lon = none ∧
    (normalizeSpot rawLatOnly 0).hasCoords = false := by decide

/-- An invalid scalar (blank, null/absent, or non-numeric) parses to an
absent coordinate. -/
theorem coordOf_invalid {v : JVal}
    (h : v = JVal.jstr "" ∨ v = JVal.jnull ∨ toNumber v = none) :
    coordOf v = none := by
  rcases h with h | h | h
  · simp [coordOf, h]
  · simp [coordOf, h]
  · by_cases h2 : v = JVal.jstr "" ∨ v = JVal.jnull
    · simp [coordOf, h2]
    · simp [coordOf, h2, h]

/-- Claim C6 (amended): each coordinate is parsed independently — a
blank, null, or non-numeric `lat` (resp. `lon`) makes **that**
coordinate absent and `hasCoords` false, while a parseable other
coordinate is retained; `hasCoords` always equals
`isSome lat && isSome lon`; a string `tags` field is split on pipes
(pieces trimmed, empties dropped) and a pre-split list is accepted
as-is; the optional text fields name, description, address, url,
region, pref and city default to the empty string, while the thumbnail
is passed through unchanged (with no default); `id` falls back to the
stringified positional index when the record omits it; the function is
total, so no input raises an error. -/
theorem c6_amended_normalize (raw : RawSpot) (idx : ℕ) :
    ((normalizeSpot raw idx).hasCoords =
      ((normalizeSpot raw idx).lat.isSome && (normalizeSpot raw idx).lon.isSome)) ∧
    ((raw.lat = JVal.jstr "" ∨ raw.lat = JVal.jnull ∨ toNumber raw.lat = none) →
      (normalizeSpot raw idx).lat = none ∧ (normalizeSpot raw idx).hasCoords = false) ∧
    ((raw.lon = JVal.jstr "" ∨ raw.lon = JVal.jnull ∨ toNumber raw.lon = none) →
      (normalizeSpot raw idx).lon = none ∧ (normalizeSpot raw idx).hasCoords = false) ∧
    (∀ s, raw.tags = JTags.tagStr s →
      (normalizeSpot raw idx).tags =
        ((splitStr '|' s).map trimStr).filter (fun t => t ≠ "")) ∧
    (∀ ts, raw.tags = JTags.tagList ts → (normalizeSpot raw idx).tags = ts) ∧
    ((raw.name = none → (normalizeSpot raw idx).name = "") ∧
      (raw.description = none → (normalizeSpot raw idx).desc = "") ∧
      (raw.address = none → (normalizeSpot raw idx).address = "") ∧
      (raw.url = none → (normalizeSpot raw idx).url = "") ∧
      (raw.region = none → (normalizeSpot raw idx).region = "") ∧
      (raw.prefecture = none → raw.pref = none → (normalizeSpot raw idx).pref = "") ∧
      (raw.city = none → (normalizeSpot raw idx).city = "")) ∧
    ((normalizeSpot raw idx).thumb = raw.image_url) ∧
    (raw.id = none → (normalizeSpot raw idx).id = toString idx) := by
  refine ⟨rfl, ?_, ?_, ?_, ?_, ?_, rfl, ?_⟩
  · intro h
    have hc := coordOf_invalid h
    constructor
    · simp [normalizeSpot, hc]
    · simp [normalizeSpot, hc]
  · intro h
    have hc := coordOf_invalid h
    constructor
    · simp [normalizeSpot, hc]
    · simp [normalizeSpot, hc]
  · intro s hs
    simp [normalizeSpot, hs]
  · intro ts hts
    simp [normalizeSpot, hts]
  · refine ⟨?_, ?_, ?_, ?_, ?_, ?_, ?_⟩ <;> intro h <;>
      simp [normalizeSpot, jsOr, h]
    intro h2
    simp [jsOr, h2]
  · intro h
    simp [normalizeSpot, h]

/-- Witness for the amended C6 at a concrete input: an all-absent
record yields absent coordinates and the positional-index id. -/
theorem c6_witness :
    (normalizeSpot emptyRaw 7).lat = none ∧ (normalizeSpot emptyRaw 7).id = "7" :=
  ⟨((c6_amended_normalize emptyRaw 7).2.1 (Or.inr (Or.inl rfl))).1,
    (c6_amended_normalize emptyRaw 7).2.2.2.2.2.2.2 rfl⟩

/-! ### Claim C7 -/

/-- Claim C7: on every authentication transition the new logged-in bit
is true iff both the user and the credential are non-null, the comment
cache is unconditionally cleared, the transition to unauthenticated
resets the favorite set and the search history synchronously, and — the
cache being empty — a subsequent `ensureComments` call takes the fetch
branch and returns freshly fetched data rather than anything stale. -/
theorem c7_auth_transition (s : SessionState) (user idToken : Option String)
    (ff hf : Except Unit (List String)) :
    (onAuthChange s user idToken ff hf).isLoggedIn = (user.isSome && idToken.isSome) ∧
    (onAuthChange s user idToken ff hf).commentsCache = [] ∧
    ((user.isSome && idToken.isSome) = false →
      (onAuthChange s user idToken ff hf).favs = [] ∧
      (onAuthChange s user idToken ff hf).searchHistory = []) ∧
    (∀ pid, cacheLookup pid (onAuthChange s user idToken ff hf).commentsCache = none) ∧
    (∀ pid items, (ensureComments true (onAuthChange s user idToken ff hf).commentsCache
      pid (Except.ok items)).2 = items) := by
  refine ⟨rfl, rfl, ?_, ?_, ?_⟩
  · intro h
    simp [onAuthChange, h]
  · intro pid
    simp [onAuthChange, cacheLookup]
  · intro pid items
    simp [onAuthChange, ensureComments, cacheLookup]

/-- A populated authenticated session, to exercise the transition. -/
def s0 : SessionState :=
  { user := some "u", idToken := some "t", isLoggedIn := true, favs := ["a"],
    commentsCache := [("p", [{ body := "old", rating := 1 }])], searchHistory := ["q"] }

/-- Witness for C7 at a concrete input: logging out of a populated
session clears favorites and the comment cache. -/
theorem c7_witness :
    (onAuthChange s0 none none (Except.ok ["x"]) (Except.ok ["y"])).favs = [] ∧
    (onAuthChange s0 none none (Except.ok ["x"]) (Except.ok ["y"])).commentsCache = [] :=
  ⟨((c7_auth_transition s0 none none (Except.ok ["x"]) (Except.ok ["y"])).2.2.1
      (by decide)).1,
    (c7_auth_transition s0 none none (Except.ok ["x"]) (Except.ok ["y"])).2.1⟩

/-! ### Claim C8 -/

/-- Claim C8: calling `toggleFav` while unauthenticated is a no-op with
a user-visible notice — the favorite set is returned unchanged and no
network request is issued, whatever the network would have answered. -/
theorem c8_toggle_unauthenticated (favs : List String) (id : String) (netOk : Bool) :
    toggleFav false favs id netOk = { favs := favs, requests := [], notice := true } := by
  simp [toggleFav]

/-- Instance of C8 at a concrete input. -/
theorem c8_witness :
    toggleFav false ["x"] "y" true = { favs := ["x"], requests := [], notice := true } :=
  c8_toggle_unauthenticated ["x"] "y" true

/-! ### Claim C9 -/

/-- The add pass issues nothing when every pooled keep-id is already
rendered. -/
theorem syncMarkers_added_eq_nil {pool rendered2 keep : List String}
    (h : ∀ id ∈ keep, id ∈ pool → id ∈ rendered2) :
    (syncMarkers pool rendered2 keep).added = [] := by
  simp only [syncMarkers]
  rw [List.filter_eq_nil_iff]
  intro id hid
  simp only [Bool.and_eq_true, Bool.not_eq_true', decide_eq_true_eq,
    decide_eq_false_iff_not]
  intro hcon
  exact hcon.1 (h id hid hcon.2)

/-- The remove pass issues nothing when everything rendered is kept. -/
theorem syncMarkers_removed_eq_nil {pool rendered2 keep : List String}
    (h : ∀ id ∈ rendered2, id ∈ keep) :
    (syncMarkers pool rendered2 keep).removed = [] := by
  simp only [syncMarkers]
  rw [List.filter_eq_nil_iff]
  intro id hid
  simp only [Bool.not_eq_true', decide_eq_false_iff_not, not_not]
  exact h id hid

/-- Claim C9: provided every requested id has a pooled marker (true at
the call site, where both sets are built from the coordinate-bearing
places), `syncMarkers` adds exactly `keep − rendered` and removes
exactly `rendered − keep`; it is idempotent — a second call with the
same keep-set issues no instructions — and the keep-set the renderer
builds only ever contains ids of places with coordinates. -/
theorem c9_sync_markers (pool rendered keep : List String)
    (hk : ∀ id ∈ keep, id ∈ pool) :
    (∀ id, id ∈ (syncMarkers pool rendered keep).added ↔
      (id ∈ keep ∧ id ∉ rendered)) ∧
    (∀ id, id ∈ (syncMarkers pool rendered keep).removed ↔
      (id ∈ rendered ∧ id ∉ keep)) ∧
    (syncMarkers pool (syncMarkers pool rendered keep).rendered keep).added = [] ∧
    (syncMarkers pool (syncMarkers pool rendered keep).rendered keep).removed = [] ∧
    (∀ (l : List Place) (pid : String), pid ∈ renderKeepIds l →
      ∃ p, p ∈ l ∧ p.id = pid ∧ p.hasCoords = true) := by
  have hrend : ∀ id, id ∈ (syncMarkers pool rendered keep).rendered ↔
      ((id ∈ rendered ∧ id ∈ keep) ∨ (id ∈ keep ∧ id ∉ rendered ∧ id ∈ pool)) := by
    intro id
    simp [syncMarkers, List.mem_filter]
  refine ⟨?_, ?_, ?_, ?_, ?_⟩
  · intro id
    simp only [syncMarkers, List.mem_filter, Bool.and_eq_true, Bool.not_eq_true',
      decide_eq_true_eq, decide_eq_false_iff_not]
    constructor
    · rintro ⟨h1, h2, -⟩
      exact ⟨h1, h2⟩
    · rintro ⟨h1, h2⟩
      exact ⟨h1, h2, hk id h1⟩
  · intro id
    simp [syncMarkers, List.mem_filter]
  · apply syncMarkers_added_eq_nil
    intro id hid hp
    rw [hrend id]
    by_cases hr : id ∈ rendered
    · exact Or.inl ⟨hr, hid⟩
    · exact Or.inr ⟨hid, hr, hp⟩
  · apply syncMarkers_removed_eq_nil
    intro id hid
    rcases (hrend id).mp hid with ⟨-, h⟩ | ⟨h, -⟩ <;> exact h
  · intro l pid h
    simp only [renderKeepIds, List.mem_map, List.mem_filter] at h
    obtain ⟨p, ⟨hpl, hpc⟩, rfl⟩ := h
    exact ⟨p, hpl, rfl, hpc⟩

/-- Witness for C9 at concrete inputs: with pool `a,b`, rendered `b,c`
and keep `a,b`, the first call adds `a`, and a second call with the
same keep-set issues nothing. -/
theorem c9_witness :
    ("a" ∈ (syncMarkers ["a", "b"] ["b", "c"] ["a", "b"]).added) ∧
    (syncMarkers ["a", "b"] (syncMarkers ["a", "b"] ["b", "c"] ["a", "b"]).rendered
      ["a", "b"]).added = [] :=
  ⟨((c9_sync_markers ["a", "b"] ["b", "c"] ["a", "b"] (by decide)).1 "a").mpr
      (by decide),
    (c9_sync_markers ["a", "b"] ["b", "c"] ["a", "b"] (by decide)).2.2.1⟩

/-! ### Claim C10 -/

/-- Every place built by the registry has the student flag off. -/
theorem buildPlacesAux_student (raws : List RawSpot) (i : ℕ) (p : Place)
    (h : p ∈ buildPlacesAux i raws) : p.studentAvailable = false := by
  induction raws generalizing i with
  | nil => simp [buildPlacesAux] at h
  | cons r rs ih =>
    simp only [buildPlacesAux, List.mem_cons] at h
    rcases h with rfl | h
    · rfl
    · exact ih _ h

/-- Claim C10 (implicit): `normalizeSpot` always produces
`student.available = false`, so over any catalog built from backend
records the pipeline with the `onlyDiscount` flag set returns the empty
list. -/
theorem c10_discount_always_empty (raw : RawSpot) (idx : ℕ)
    (distM distKm : ℚ × ℚ → ℚ × ℚ → ℚ) (a : FilterArgs) (q : String)
    (raws : List RawSpot) (hd : a.onlyDiscount = true) :
    (normalizeSpot raw idx).studentAvailable = false ∧
    (filterPlaces distM distKm a q (buildPlaces raws)).result = [] := by
  refine ⟨rfl, ?_⟩
  have hsurv : survivors distM a q (buildPlaces raws) = [] := by
    rw [List.eq_nil_iff_forall_not_mem]
    intro p hp
    obtain ⟨hmem, -, hdisc⟩ := mem_survivors hp
    have h1 := buildPlacesAux_student raws 0 p hmem
    rw [hdisc hd] at h1
    simp at h1
  unfold filterPlaces
  by_cases hs : (a.sortByDistance && a.currentLoc.isSome) = true
  · rw [if_pos hs]
    simp [hsurv]
  · rw [if_neg hs]
    simp [hsurv]

/-- Arguments requesting only discounted places. -/
def argsDiscount : FilterArgs := { argsNone with onlyDiscount := true }

/-- Witness for C10 at a concrete input. -/
theorem c10_witness :
    (filterPlaces dm0 dk0 argsDiscount "" (buildPlaces [emptyRaw])).result = [] :=
  (c10_discount_always_empty emptyRaw 0 dm0 dk0 argsDiscount "" [emptyRaw] rfl).2

end Share
